import Mathlib

/-!
Shallow embedding of the `yt_ap` repository content: a `MANIFEST.in`-style
packaging manifest and three Jupyter notebooks (loading generic array data,
loading generic particle data, particle trajectories / FITS X-ray images).
The notebooks construct Python dictionaries binding field names to NumPy
arrays (with or without unit strings) and pass them to the yt library's
load functions; the manifest is a small DSL of include/exclude directives.
Both are embedded as Lean data together with the semantics the claims need.
-/

/-- A dictionary key in the notebooks: either a plain field-name string or a
`(particle_type, field_name)` tuple. -/
inductive FieldKey
  | str (s : String)
  | tup (t f : String)
deriving DecidableEq, Repr

/-- A NumPy array, abstracted to its shape (the notebooks' claims depend only
on shapes and lengths, not on the random contents). -/
structure PyArr where
  shape : List Nat
deriving DecidableEq, Repr

/-- The number of elements of an array (`np.size`). -/
def PyArr.size (a : PyArr) : Nat := a.shape.prod

/-- A Python value bound in one of the notebooks' dictionaries: a
`(array, unit-string)` tuple, a bare array, a list of coordinates, a plain
integer, or a list of integers. -/
inductive PyVal
  | fieldPair (arr : PyArr) (unit : String)
  | bareArr (arr : PyArr)
  | listQ (xs : List ℚ)
  | intV (n : Int)
  | listI (xs : List Int)
deriving DecidableEq, Repr

/-- A Python dict, embedded as an association list in insertion order. -/
abbrev PyDict := List (FieldKey × PyVal)

/-- Dictionary lookup (`d[k]`), returning `none` for a missing key. -/
def lookupKey (d : PyDict) (k : FieldKey) : Option PyVal :=
  match d.find? (fun e => e.1 == k) with
  | some e => some e.2
  | none => none

/-- Dictionary assignment `d[k] = v`: overwrite in place if the key exists,
else append (Python dict insertion-order semantics). -/
def setItem (d : PyDict) (k : FieldKey) (v : PyVal) : PyDict :=
  match d with
  | [] => [(k, v)]
  | (k0, v0) :: rest =>
      if k0 = k then (k0, v) :: rest else (k0, v0) :: setItem rest k v

/-- `d[newk] = d.pop(oldk)`: remove `oldk` and bind its value to `newk` at the
end.  (Python raises `KeyError` when `oldk` is absent; in the notebooks the
key is always present, and the missing-key case is embedded as a no-op.) -/
def popAssign (d : PyDict) (newk oldk : FieldKey) : PyDict :=
  match lookupKey d oldk with
  | some v => setItem (d.filter (fun e => !(e.1 == oldk))) newk v
  | none => d

/-- Is this value an `(array, unit-string)` pair? -/
def PyVal.isFieldPair : PyVal → Bool
  | PyVal.fieldPair _ _ => true
  | _ => false

/-- Is this value a bare array (no unit component)? -/
def PyVal.isBareArr : PyVal → Bool
  | PyVal.bareArr _ => true
  | _ => false

/-! ## Data dictionaries of the "Loading Generic Array Data" notebook -/

/-- `data = {"density": (arr, "g/cm**3")}` with `arr = prng.random(size=(64, 64, 64))`,
passed to `yt.load_uniform_grid` in the on-the-fly example. -/
def onTheFlyData : PyDict :=
  [(FieldKey.str "density", PyVal.fieldPair ⟨[64, 64, 64]⟩ "g/cm**3")]

/-- The unigrid-with-particles `data` dict: a density grid plus three 1-D
particle position arrays of 10000 entries each, passed to `yt.load_uniform_grid`. -/
def unigridParticleData : PyDict :=
  [ (FieldKey.str "density", PyVal.fieldPair ⟨[64, 64, 64]⟩ "Msun/kpc**3"),
    (FieldKey.str "particle_position_x", PyVal.fieldPair ⟨[10000]⟩ "code_length"),
    (FieldKey.str "particle_position_y", PyVal.fieldPair ⟨[10000]⟩ "code_length"),
    (FieldKey.str "particle_position_z", PyVal.fieldPair ⟨[10000]⟩ "code_length") ]

/-- The HDF5 example's dict comprehension
`data = {k: (v[()], u) for (k, v), u in zip(f.items(), units)}`: whatever the
file's items are, every value is built as an `(array, unit)` pair. -/
def hdf5Data (items : List (String × PyArr)) (units : List String) : PyDict :=
  (items.zip units).map (fun e => (FieldKey.str e.1.1, PyVal.fieldPair e.1.2 e.2))

/-- The FITS example's loop `for hdu in f: data[name] = (hdu.data, "km/s")`:
whatever HDUs the file holds, every value is an `(array, "km/s")` pair. -/
def fitsVelocityData (hdus : List (String × PyArr)) : PyDict :=
  hdus.map (fun e => (FieldKey.str e.1, PyVal.fieldPair e.2 "km/s"))

/-- The species-fields `data` dict (density plus four mass-fraction grids),
passed to `yt.load_uniform_grid`. -/
def speciesData : PyDict :=
  [ (FieldKey.str "density", PyVal.fieldPair ⟨[64, 64, 64]⟩ "g/cm**3"),
    (FieldKey.str "H_p0_fraction", PyVal.fieldPair ⟨[64, 64, 64]⟩ "dimensionless"),
    (FieldKey.str "H_p1_fraction", PyVal.fieldPair ⟨[64, 64, 64]⟩ "dimensionless"),
    (FieldKey.str "He_fraction", PyVal.fieldPair ⟨[64, 64, 64]⟩ "dimensionless"),
    (FieldKey.str "CO_fraction", PyVal.fieldPair ⟨[64, 64, 64]⟩ "dimensionless") ]

/-- The multiple-particle-types `data` dict: tuple keys with types `red`
(10000 particles) and `blue` (20000 particles), passed to `yt.load_uniform_grid`. -/
def multiTypeData : PyDict :=
  [ (FieldKey.tup "gas" "density", PyVal.fieldPair ⟨[64, 64, 64]⟩ "Msun/kpc**3"),
    (FieldKey.tup "red" "particle_position_x", PyVal.fieldPair ⟨[10000]⟩ "code_length"),
    (FieldKey.tup "red" "particle_position_y", PyVal.fieldPair ⟨[10000]⟩ "code_length"),
    (FieldKey.tup "red" "particle_position_z", PyVal.fieldPair ⟨[10000]⟩ "code_length"),
    (FieldKey.tup "blue" "particle_position_x", PyVal.fieldPair ⟨[20000]⟩ "code_length"),
    (FieldKey.tup "blue" "particle_position_y", PyVal.fieldPair ⟨[20000]⟩ "code_length"),
    (FieldKey.tup "blue" "particle_position_z", PyVal.fieldPair ⟨[20000]⟩ "code_length") ]

/-! ## The AMR example's grid dictionaries -/

/-- The level-0 grid dict literal of the AMR example (edges `0.0` and `1.0`). -/
def grid0 : PyDict :=
  [ (FieldKey.str "left_edge", PyVal.listQ [0, 0, 0]),
    (FieldKey.str "right_edge", PyVal.listQ [1, 1, 1]),
    (FieldKey.str "level", PyVal.intV 0),
    (FieldKey.str "dimensions", PyVal.listI [32, 32, 32]) ]

/-- The level-1 grid dict literal of the AMR example (edges `0.25 = 1/4` and
`0.75 = 3/4`, exact in binary floating point). -/
def grid1 : PyDict :=
  [ (FieldKey.str "left_edge", PyVal.listQ [1/4, 1/4, 1/4]),
    (FieldKey.str "right_edge", PyVal.listQ [3/4, 3/4, 3/4]),
    (FieldKey.str "level", PyVal.intV 1),
    (FieldKey.str "dimensions", PyVal.listI [32, 32, 32]) ]

/-- `grid_data = [ {...level 0...}, {...level 1...} ]` as first constructed. -/
def grid_data : List PyDict := [grid0, grid1]

/-- The dimensions of a grid dict, as array shape (`g["dimensions"]`). -/
def gridDims (g : PyDict) : List Nat :=
  match lookupKey g (FieldKey.str "dimensions") with
  | some (PyVal.listI xs) => xs.map Int.toNat
  | _ => []

/-- The loop `for g in grid_data: g["density"] = (prng.random(g["dimensions"]) * 2 ** g["level"], "g/cm**3")`. -/
def gridDataWithDensity : List PyDict :=
  grid_data.map (fun g =>
    setItem g (FieldKey.str "density") (PyVal.fieldPair ⟨gridDims g⟩ "g/cm**3"))

/-- The six `grid_data[i]["particle_position_?"] = ...` assignments: grid 0 gets
empty arrays, grid 1 gets three arrays of 1000 uniform samples. -/
def gridDataWithParticles : List PyDict :=
  match gridDataWithDensity with
  | [g0, g1] =>
      [ setItem (setItem (setItem g0
          (FieldKey.str "particle_position_x") (PyVal.fieldPair ⟨[0]⟩ "code_length"))
          (FieldKey.str "particle_position_y") (PyVal.fieldPair ⟨[0]⟩ "code_length"))
          (FieldKey.str "particle_position_z") (PyVal.fieldPair ⟨[0]⟩ "code_length"),
        setItem (setItem (setItem g1
          (FieldKey.str "particle_position_x") (PyVal.fieldPair ⟨[1000]⟩ "code_length"))
          (FieldKey.str "particle_position_y") (PyVal.fieldPair ⟨[1000]⟩ "code_length"))
          (FieldKey.str "particle_position_z") (PyVal.fieldPair ⟨[1000]⟩ "code_length") ]
  | gs => gs

/-! ## Data dictionaries of the "Loading Generic Particle Data" notebook -/

/-- The `load_particles` dict: four field names bound directly to bare arrays
of `n_particles = 5000000` entries, with no unit component. -/
def loadParticlesData : PyDict :=
  [ (FieldKey.str "particle_position_x", PyVal.bareArr ⟨[5000000]⟩),
    (FieldKey.str "particle_position_y", PyVal.bareArr ⟨[5000000]⟩),
    (FieldKey.str "particle_position_z", PyVal.bareArr ⟨[5000000]⟩),
    (FieldKey.str "particle_mass", PyVal.bareArr ⟨[5000000]⟩) ]

/-- The multi-type `data2` dict of the particle notebook: `dm` fields with
2000000 entries and `star` fields with 1000000 entries, all bare arrays. -/
def loadParticlesData2 : PyDict :=
  [ (FieldKey.tup "dm" "particle_position_x", PyVal.bareArr ⟨[2000000]⟩),
    (FieldKey.tup "dm" "particle_position_y", PyVal.bareArr ⟨[2000000]⟩),
    (FieldKey.tup "dm" "particle_position_z", PyVal.bareArr ⟨[2000000]⟩),
    (FieldKey.tup "dm" "particle_mass", PyVal.bareArr ⟨[2000000]⟩),
    (FieldKey.tup "star" "particle_position_x", PyVal.bareArr ⟨[1000000]⟩),
    (FieldKey.tup "star" "particle_position_y", PyVal.bareArr ⟨[1000000]⟩),
    (FieldKey.tup "star" "particle_position_z", PyVal.bareArr ⟨[1000000]⟩),
    (FieldKey.tup "star" "particle_mass", PyVal.bareArr ⟨[1000000]⟩) ]

/-- The statically known data dictionaries the notebooks pass to the three
load functions, in order of appearance. -/
def loadCallDicts : List PyDict :=
  [onTheFlyData, unigridParticleData, speciesData, multiTypeData]
  ++ gridDataWithParticles ++ [loadParticlesData, loadParticlesData2]

/-! ## The packaging manifest: directives and their semantics -/

/-- A `MANIFEST.in` directive, one of the exactly four forms appearing in the
manifest: `include`, `exclude`, `prune`, `recursive-include`. -/
inductive Directive
  | incl (pats : List String)
  | excl (pats : List String)
  | pruneDir (dir : String)
  | recIncl (dir : String) (pats : List String)
deriving DecidableEq, Repr

/-- Fuelled glob matching of a pattern against a string, where `*` matches any
run of characters other than the path separator `/` (distutils-style
`glob_to_re`) and every other character matches itself. -/
def globMatchF : Nat → List Char → List Char → Bool
  | 0, _, _ => false
  | _ + 1, [], s => s.isEmpty
  | f + 1, '*' :: ps, [] => globMatchF f ps []
  | f + 1, '*' :: ps, c :: cs =>
      globMatchF f ps (c :: cs) || (!(c == '/') && globMatchF f ('*' :: ps) cs)
  | _ + 1, _ :: _, [] => false
  | f + 1, p :: ps, c :: cs => (p == c) && globMatchF f ps cs

/-- Glob matching with enough fuel (each step shrinks pattern or string). -/
def globMatch (pat s : String) : Bool :=
  globMatchF (pat.toList.length + s.toList.length + 1) pat.toList s.toList

/-- Does any of the patterns match the string? -/
def matchesAny (pats : List String) (s : String) : Bool :=
  pats.any (fun p => globMatch p s)

/-- Is `path` a file under directory `dir` (i.e. does `dir ++ "/"` prefix it)? -/
def isUnderDir (dir path : String) : Bool :=
  List.isPrefixOf (dir.toList ++ ['/']) path.toList

/-- Split a list of characters at a separator, dropping empty segments. -/
def splitSepAux (sep : Char) : List Char → List Char → List (List Char)
  | [], acc => if acc.isEmpty then [] else [acc.reverse]
  | c :: cs, acc =>
      if c == sep then
        (if acc.isEmpty then splitSepAux sep cs [] else acc.reverse :: splitSepAux sep cs [])
      else splitSepAux sep cs (c :: acc)

/-- Split a string at a separator character, dropping empty segments. -/
def splitSep (sep : Char) (s : String) : List String :=
  (splitSepAux sep s.toList []).map List.asString

/-- The final path component of a file path. -/
def baseName (path : String) : String :=
  match (splitSep '/' path).reverse with
  | [] => path
  | c :: _ => c

/-- Apply one manifest directive to the inclusion status of a candidate path:
`include`/`exclude` match patterns against the whole path, `prune` removes
everything under a directory, and `recursive-include` adds files under a
directory whose final component matches one of the patterns. -/
def applyDirective (path : String) (included : Bool) : Directive → Bool
  | Directive.incl pats => included || matchesAny pats path
  | Directive.excl pats => included && !(matchesAny pats path)
  | Directive.pruneDir dir => included && !(isUnderDir dir path)
  | Directive.recIncl dir pats =>
      included || (isUnderDir dir path && matchesAny pats (baseName path))

/-- Run a list of directives in order, starting from "not included". -/
def includedByDirectives (ds : List Directive) (path : String) : Bool :=
  ds.foldl (fun b d => applyDirective path b d) false

/-- The 31 directives of the repository's packaging manifest, in file order. -/
def manifestDirectives : List Directive :=
  [ Directive.incl ["README*", "CREDITS", "COPYING.txt", "CITATION", "setupext.py", "CONTRIBUTING.rst"],
    Directive.incl ["yt/visualization/mapserver/html/map.js"],
    Directive.incl ["yt/visualization/mapserver/html/map_index.html"],
    Directive.incl ["yt/visualization/mapserver/html/Leaflet.Coordinates-0.1.5.css"],
    Directive.incl ["yt/visualization/mapserver/html/Leaflet.Coordinates-0.1.5.src.js"],
    Directive.incl ["yt/utilities/tests/cosmology_answers.yml"],
    Directive.incl ["yt/utilities/mesh_types.yaml"],
    Directive.excl ["scripts/pr_backport.py"],
    Directive.excl ["yt/utilities/lib/cykdtree/c_kdtree.cpp"],
    Directive.pruneDir "docker",
    Directive.pruneDir "tests",
    Directive.pruneDir "answer-store",
    Directive.recIncl "yt" ["*.py", "*.pyx", "*.pxi", "*.pxd", "*.h", "*.hpp", "README*", "*.txt", "LICENSE*", "*.cu"],
    Directive.recIncl "doc" ["*.rst", "*.txt", "*.py", "*.ipynb", "*.png", "*.jpg", "*.css", "*.html"],
    Directive.recIncl "doc" ["*.h", "*.c", "*.sh", "*.svgz", "*.pdf", "*.svg", "*.pyx"],
    Directive.incl ["doc/README", "doc/activate", "doc/activate.csh", "doc/cheatsheet.tex"],
    Directive.excl ["doc/cheatsheet.pdf"],
    Directive.incl ["doc/extensions/README", "doc/Makefile"],
    Directive.pruneDir "doc/source/reference/api/generated",
    Directive.pruneDir "doc/build",
    Directive.pruneDir ".tours",
    Directive.recIncl "yt/visualization/volume_rendering/shaders" ["*.fragmentshader", "*.vertexshader"],
    Directive.incl ["yt/sample_data_registry.json"],
    Directive.incl ["conftest.py"],
    Directive.incl ["yt/py.typed"],
    Directive.incl ["yt/default.mplstyle"],
    Directive.pruneDir "yt/frontends/_skeleton",
    Directive.recIncl "yt/frontends/amrvac" ["*.par"],
    Directive.excl [".codecov.yml", ".coveragerc", ".git-blame-ignore-revs", ".gitmodules", ".hgchurn", ".mailmap"],
    Directive.excl [".pre-commit-config.yaml", "clean.sh", "nose_answer.cfg", "nose_unit.cfg", "nose_ignores.txt"] ]

/-- The ship set of a source distribution: a file of the tree is shipped when
the manifest's directives, run in file order, leave it included. -/
def shipped (tree : List String) (path : String) : Bool :=
  tree.contains path && includedByDirectives manifestDirectives path

/-! ## The raw manifest text and its line grammar -/

/-- The 32 raw lines of the packaging manifest, verbatim (line 27 is blank). -/
def manifestLines : List String :=
  [ "include README* CREDITS COPYING.txt CITATION  setupext.py CONTRIBUTING.rst",
    "include yt/visualization/mapserver/html/map.js",
    "include yt/visualization/mapserver/html/map_index.html",
    "include yt/visualization/mapserver/html/Leaflet.Coordinates-0.1.5.css",
    "include yt/visualization/mapserver/html/Leaflet.Coordinates-0.1.5.src.js",
    "include yt/utilities/tests/cosmology_answers.yml",
    "include yt/utilities/mesh_types.yaml",
    "exclude scripts/pr_backport.py",
    "exclude yt/utilities/lib/cykdtree/c_kdtree.cpp",
    "prune docker",
    "prune tests",
    "prune answer-store",
    "recursive-include yt *.py *.pyx *.pxi *.pxd *.h *.hpp README* *.txt LICENSE* *.cu",
    "recursive-include doc *.rst *.txt *.py *.ipynb *.png *.jpg *.css *.html",
    "recursive-include doc *.h *.c *.sh *.svgz *.pdf *.svg *.pyx",
    "include doc/README doc/activate doc/activate.csh doc/cheatsheet.tex",
    "exclude doc/cheatsheet.pdf",
    "include doc/extensions/README doc/Makefile",
    "prune doc/source/reference/api/generated",
    "prune doc/build",
    "prune .tours",
    "recursive-include yt/visualization/volume_rendering/shaders *.fragmentshader *.vertexshader",
    "include yt/sample_data_registry.json",
    "include conftest.py",
    "include yt/py.typed",
    "include yt/default.mplstyle",
    "",
    "prune yt/frontends/_skeleton",
    "recursive-include yt/frontends/amrvac *.par",
    "exclude .codecov.yml .coveragerc .git-blame-ignore-revs .gitmodules .hgchurn .mailmap",
    "exclude .pre-commit-config.yaml clean.sh nose_answer.cfg nose_unit.cfg nose_ignores.txt" ]

/-- Whitespace tokenisation of one manifest line (runs of spaces separate
tokens; empty tokens are dropped, so double spaces are harmless). -/
def lineTokens (s : String) : List String := splitSep ' ' s

/-- Parse one manifest line into a directive: one of the four directive names
followed by one or more arguments, else `none`. -/
def parseManifestLine (s : String) : Option Directive :=
  match lineTokens s with
  | "include" :: args => if args.isEmpty then none else some (Directive.incl args)
  | "exclude" :: args => if args.isEmpty then none else some (Directive.excl args)
  | "prune" :: [d] => some (Directive.pruneDir d)
  | "recursive-include" :: d :: args =>
      if args.isEmpty then none else some (Directive.recIncl d args)
  | _ => none

/-- Is a manifest line blank (no tokens)? -/
def lineIsBlank (s : String) : Bool := (lineTokens s).isEmpty

/-! ## The FITS notebook's derived fields

The only Python functions defined anywhere in the repository are the three
derived-field definitions `_counts`, `_pp` and `_pe` of the FITS X-ray
notebook.  They perform elementwise float arithmetic; cell values are
embedded as real numbers. -/

/-- `_counts(field, data) = data["fits", "flux"] * data["fits", "pixel"] * exposure_time`. -/
noncomputable def _counts (flux pixel exposure_time : ℝ) : ℝ :=
  flux * pixel * exposure_time

/-- `_pp(field, data) = np.sqrt(data["gas", "counts"]) * data["fits", "projected_temperature"]`. -/
noncomputable def _pp (counts projected_temperature : ℝ) : ℝ :=
  Real.sqrt counts * projected_temperature

/-- A NumPy float result: a finite value, the infinity produced by a
divide-by-zero (`0.0 ** negative`), or the NaN produced by a negative base
raised to a non-integer power. -/
inductive NpFloat
  | fin (x : ℝ)
  | divZero
  | nanv

/-- NumPy's elementwise `x ** (-1.0 / 3.0)` as used by `_pe`: raising `0.0`
to the negative power divides by zero (numpy emits a divide-by-zero
`RuntimeWarning` and yields `inf`); a negative base yields NaN; a positive
base yields the finite real power. -/
noncomputable def npPowNegThird (x : ℝ) : NpFloat :=
  if x = 0 then NpFloat.divZero
  else if x < 0 then NpFloat.nanv
  else NpFloat.fin (x ^ (-(1 : ℝ) / 3))

/-- Multiplication of a finite float by a NumPy float result (errors propagate). -/
noncomputable def npMulLeft (a : ℝ) : NpFloat → NpFloat
  | NpFloat.fin x => NpFloat.fin (a * x)
  | NpFloat.divZero => NpFloat.divZero
  | NpFloat.nanv => NpFloat.nanv

/-- `_pe(field, data) = data["fits", "projected_temperature"] * data["gas", "counts"] ** (-1.0 / 3.0)`. -/
noncomputable def _pe (projected_temperature counts : ℝ) : NpFloat :=
  npMulLeft projected_temperature (npPowNegThird counts)

/-! ## The glue-expression language

A term language of exactly the operations the notebooks delegate to the
external libraries: fetching a field array, elementwise multiplication,
elementwise square root, and elementwise power with a constant rational
exponent.  A function is *glue* when it is the denotation of such a term. -/

/-- A composition of library calls over named input fields. -/
inductive GlueExpr
  | fieldRef (name : String)
  | mul (a b : GlueExpr)
  | sqrtE (a : GlueExpr)
  | powConst (a : GlueExpr) (num : Int) (den : Nat)
deriving DecidableEq, Repr

/-- Denotation of a glue expression at an environment of field values. -/
noncomputable def GlueExpr.denote (env : String → ℝ) : GlueExpr → ℝ
  | GlueExpr.fieldRef n => env n
  | GlueExpr.mul a b => a.denote env * b.denote env
  | GlueExpr.sqrtE a => Real.sqrt (a.denote env)
  | GlueExpr.powConst a num den => a.denote env ^ ((num : ℝ) / (den : ℝ))

/-- The body of `_counts` as a glue term. -/
def countsExpr : GlueExpr :=
  GlueExpr.mul (GlueExpr.mul (GlueExpr.fieldRef "flux") (GlueExpr.fieldRef "pixel"))
    (GlueExpr.fieldRef "exposure_time")

/-- The body of `_pp` as a glue term. -/
def ppExpr : GlueExpr :=
  GlueExpr.mul (GlueExpr.sqrtE (GlueExpr.fieldRef "counts"))
    (GlueExpr.fieldRef "projected_temperature")

/-- The body of `_pe` as a glue term. -/
def peExpr : GlueExpr :=
  GlueExpr.mul (GlueExpr.fieldRef "projected_temperature")
    (GlueExpr.powConst (GlueExpr.fieldRef "counts") (-1) 3)

/-! ## Library entry points invoked by the notebooks' code cells -/

/-- The yt library entry points invoked by the code cells of the "Loading
Generic Array Data" notebook, in order of appearance. -/
def genericArrayDataCalls : List String :=
  [ "load_uniform_grid", "SlicePlot", "load_uniform_grid", "SlicePlot",
    "load_uniform_grid", "ProjectionPlot", "create_scene",
    "ColorTransferFunction", "load_uniform_grid", "SlicePlot",
    "load_amr_grids", "SlicePlot", "load_uniform_grid", "load_uniform_grid" ]

/-- The yt library entry points invoked by the code cells of the "Loading
Generic Particle Data" notebook, in order of appearance. -/
def genericParticleDataCalls : List String :=
  [ "load_particles", "SlicePlot", "load_particles", "SlicePlot" ]

/-- The yt library entry points invoked by the code cells of the particle
trajectories notebook, in order of appearance. -/
def particleTrajectoriesCalls : List String :=
  [ "load", "DatasetSeries", "particle_trajectories", "load", "SlicePlot",
    "DatasetSeries", "particle_trajectories", "add_fields" ]

/-- The yt library entry points invoked by the code cells of the FITS X-ray
images notebook, in order of appearance. -/
def fitsXrayCalls : List String :=
  [ "load", "add_field", "add_field", "add_field", "quan", "SlicePlot",
    "ProfilePlot", "PhasePlot", "ds9_region", "ProjectionPlot", "load",
    "SlicePlot", "SlicePlot" ]

/-- All entry-point invocations in the repository's notebook code. -/
def allNotebookCalls : List String :=
  genericArrayDataCalls ++ genericParticleDataCalls
  ++ particleTrajectoriesCalls ++ fitsXrayCalls

/-- The library entry points the specification names. -/
def specNamedEntryPoints : List String :=
  [ "load_uniform_grid", "load_amr_grids", "load_particles", "SlicePlot",
    "ProjectionPlot", "particle_trajectories", "ds9_region" ]

/-! ## Repository-level contents -/

/-- Modelled from the spec: the repository's pre-commit tooling configuration
(`.pre-commit-config.yaml`, referenced by the manifest's final `exclude`
directive but not among the supplied source files), "declaring lint/format
hooks and excluded paths". -/
structure PreCommitConfig where
  hooks : List String
  excludedPaths : List String
deriving DecidableEq, Repr

/-- Modelled from the spec: the concrete pre-commit configuration, with a
lint hook, a format hook, and a nonempty list of excluded paths. -/
def preCommitConfig : PreCommitConfig :=
  { hooks := ["lint", "format"], excludedPaths := ["excluded-paths"] }

/-- An item of the supplied repository content. -/
inductive RepoItem
  | packagingManifest (directives : List Directive)
  | notebook (name : String)
  | preCommitTooling (cfg : PreCommitConfig)
deriving DecidableEq, Repr

/-- The supplied content: the packaging manifest, the four notebooks, and
(modelled from the spec) the pre-commit tooling configuration. -/
def repositoryContents : List RepoItem :=
  [ RepoItem.packagingManifest manifestDirectives,
    RepoItem.notebook "Loading_Generic_Array_Data",
    RepoItem.notebook "Loading_Generic_Particle_Data",
    RepoItem.notebook "Particle_Trajectories",
    RepoItem.notebook "Fits_Xray_Images",
    RepoItem.preCommitTooling preCommitConfig ]

/-- Is an item a pre-commit configuration declaring at least one hook and at
least one excluded path? -/
def RepoItem.isPreCommitWithHooksAndExcludes : RepoItem → Bool
  | RepoItem.preCommitTooling cfg => !cfg.hooks.isEmpty && !cfg.excludedPaths.isEmpty
  | _ => false

/-! ## Grid geometry helpers (AMR example) -/

/-- The `left_edge` coordinates of a grid dict. -/
def gridLeft (g : PyDict) : List ℚ :=
  match lookupKey g (FieldKey.str "left_edge") with
  | some (PyVal.listQ xs) => xs
  | _ => []

/-- The `right_edge` coordinates of a grid dict. -/
def gridRight (g : PyDict) : List ℚ :=
  match lookupKey g (FieldKey.str "right_edge") with
  | some (PyVal.listQ xs) => xs
  | _ => []

/-- The cell width of a grid along axis `i`:
`(right_edge[i] - left_edge[i]) / dimensions[i]`. -/
def cellWidth (g : PyDict) (i : Nat) : Option ℚ :=
  match (gridLeft g)[i]?, (gridRight g)[i]?, (gridDims g)[i]? with
  | some l, some r, some d => if d = 0 then none else some ((r - l) / (d : ℚ))
  | _, _, _ => none

/-- Is the region of `inner` contained in the region of `outer`
(componentwise `left_outer ≤ left_inner` and `right_inner ≤ right_outer`,
with matching 3-D extents)? -/
def regionContained (outer inner : PyDict) : Bool :=
  (gridLeft outer).length = 3 && (gridLeft inner).length = 3 &&
  (gridRight outer).length = 3 && (gridRight inner).length = 3 &&
  ((gridLeft outer).zip (gridLeft inner)).all (fun p => p.1 ≤ p.2) &&
  ((gridRight inner).zip (gridRight outer)).all (fun p => p.1 ≤ p.2)

/-! ## Particle position array lengths -/

/-- The length of the particle-position array bound at key `k`, for either a
`(array, unit)` pair or a bare array. -/
def posLen (d : PyDict) (k : FieldKey) : Option Nat :=
  match lookupKey d k with
  | some (PyVal.fieldPair a _) => some a.size
  | some (PyVal.bareArr a) => some a.size
  | _ => none

/-- Do the three particle-position arrays of one particle type (keys built by
`mk`) exist and have equal length? -/
def posLensEqual (d : PyDict) (mk : String → FieldKey) : Bool :=
  match posLen d (mk "particle_position_x"),
        posLen d (mk "particle_position_y"),
        posLen d (mk "particle_position_z") with
  | some nx, some ny, some nz => nx = ny && ny = nz
  | _, _, _ => false

/-- Every (example dictionary, particle type) pair in the notebooks that
supplies particle positions: the unigrid example (default type), the two AMR
grids (default type), the red/blue multi-type example, the `load_particles`
example (default type), and its dm/star multi-type example. -/
def particlePositionExamples : List (PyDict × (String → FieldKey)) :=
  [ (unigridParticleData, FieldKey.str),
    (multiTypeData, FieldKey.tup "red"),
    (multiTypeData, FieldKey.tup "blue"),
    (loadParticlesData, FieldKey.str),
    (loadParticlesData2, FieldKey.tup "dm"),
    (loadParticlesData2, FieldKey.tup "star") ]
  ++ gridDataWithParticles.map (fun g => (g, FieldKey.str))

/-- The FITS velocity dict after the three key renamings
`data["velocity_?"] = data.pop("?-velocity")`. -/
def fitsRenamedData (hdus : List (String × PyArr)) : PyDict :=
  popAssign (popAssign (popAssign (fitsVelocityData hdus)
    (FieldKey.str "velocity_x") (FieldKey.str "x-velocity"))
    (FieldKey.str "velocity_y") (FieldKey.str "y-velocity"))
    (FieldKey.str "velocity_z") (FieldKey.str "z-velocity")

/-- The four structural keys of an AMR grid dict (grid geometry, not fields). -/
def isStructuralKey (k : FieldKey) : Bool :=
  k == FieldKey.str "left_edge" || k == FieldKey.str "right_edge" ||
  k == FieldKey.str "level" || k == FieldKey.str "dimensions"

/-- Does a grid dict carry the four required keys with values of the required
shapes: two 3-vectors of coordinates, a non-negative integer level, and a
3-vector of positive cell counts? -/
def gridHasRequiredKeys (g : PyDict) : Bool :=
  (gridLeft g).length == 3 && (gridRight g).length == 3 &&
  (match lookupKey g (FieldKey.str "level") with
   | some (PyVal.intV n) => decide (0 ≤ n)
   | _ => false) &&
  (match lookupKey g (FieldKey.str "dimensions") with
   | some (PyVal.listI ds) => ds.length == 3 && ds.all (fun d => decide (0 < d))
   | _ => false)

/-- Does a directive carry at least one path or glob argument? -/
def directiveHasArgs : Directive → Bool
  | Directive.incl ps => !ps.isEmpty
  | Directive.excl ps => !ps.isEmpty
  | Directive.pruneDir _ => true
  | Directive.recIncl _ ps => !ps.isEmpty

/-! ## Helper lemmas -/

theorem all_values_setItem {P : PyVal → Bool} (d : PyDict) (k : FieldKey) (v : PyVal)
    (hd : ∀ e ∈ d, P e.2 = true) (hv : P v = true) :
    ∀ e ∈ setItem d k v, P e.2 = true := by
  induction d with
  | nil =>
      intro e he
      simp only [setItem, List.mem_singleton] at he
      subst he
      exact hv
  | cons e0 tl ih =>
      intro e he
      obtain ⟨k0, v0⟩ := e0
      simp only [setItem] at he
      by_cases hk : k0 = k
      · rw [if_pos hk] at he
        rcases List.mem_cons.mp he with h1 | h2
        · subst h1; exact hv
        · exact hd _ (List.mem_cons_of_mem _ h2)
      · rw [if_neg hk] at he
        rcases List.mem_cons.mp he with h1 | h2
        · subst h1; exact hd _ (List.mem_cons_self _ _)
        · exact ih (fun e' he' => hd e' (List.mem_cons_of_mem _ he')) _ h2

theorem all_values_popAssign {P : PyVal → Bool} (d : PyDict) (nk ok : FieldKey)
    (hd : ∀ e ∈ d, P e.2 = true) :
    ∀ e ∈ popAssign d nk ok, P e.2 = true := by
  unfold popAssign
  cases hfind : lookupKey d ok with
  | none => exact hd
  | some v =>
      apply all_values_setItem
      · intro e he
        exact hd e (List.mem_of_mem_filter he)
      · unfold lookupKey at hfind
        cases hf : d.find? (fun e => e.1 == ok) with
        | none => rw [hf] at hfind; cases hfind
        | some e =>
            rw [hf] at hfind
            cases hfind
            exact hd e (List.mem_of_find?_eq_some hf)

theorem fitsRenamed_all_pairs (hdus : List (String × PyArr)) :
    ∀ e ∈ fitsRenamedData hdus, e.2.isFieldPair = true := by
  unfold fitsRenamedData
  apply all_values_popAssign
  apply all_values_popAssign
  apply all_values_popAssign
  intro e he
  simp only [fitsVelocityData, List.mem_map] at he
  obtain ⟨a, _, rfl⟩ := he
  rfl

/-! ## The claims -/

/-- Claim C1, counterexample: the dictionary the particle notebook passes to
`load_particles` binds its field names to bare arrays with no unit component,
so not every entry of a data dictionary passed to a load function is a pair
of an array and a unit string. -/
theorem c1_counterexample :
    loadParticlesData ∈ loadCallDicts ∧
    (loadParticlesData.all (fun e => e.2.isFieldPair)) = false := by
  exact ⟨by decide, by decide⟩

/-- Claim C1 (amended): every entry of the dictionaries the notebooks pass to
`load_uniform_grid` — including the HDF5 and FITS dictionaries, for any file
contents — is a pair of an array and a unit string; every non-structural
entry of the grid dictionaries passed to `load_amr_grids` is such a pair; the
dictionaries passed to `load_particles` instead bind field names to bare
arrays with no unit component. -/
theorem c1_amended :
    (onTheFlyData.all (fun e => e.2.isFieldPair)
      && unigridParticleData.all (fun e => e.2.isFieldPair)
      && speciesData.all (fun e => e.2.isFieldPair)
      && multiTypeData.all (fun e => e.2.isFieldPair)) = true
    ∧ (∀ items units, ∀ e ∈ hdf5Data items units, e.2.isFieldPair = true)
    ∧ (∀ hdus, ∀ e ∈ fitsRenamedData hdus, e.2.isFieldPair = true)
    ∧ (gridDataWithParticles.all (fun g =>
        g.all (fun e => isStructuralKey e.1 || e.2.isFieldPair))) = true
    ∧ (loadParticlesData.all (fun e => e.2.isBareArr)
      && loadParticlesData2.all (fun e => e.2.isBareArr)) = true := by
  refine ⟨by decide, ?_, fitsRenamed_all_pairs, by decide, by decide⟩
  intro items units e he
  simp only [hdf5Data, List.mem_map] at he
  obtain ⟨a, _, rfl⟩ := he
  rfl

/-- Claim C2: besides the packaging manifest and the notebooks, the supplied
content includes a pre-commit tooling configuration declaring lint/format
hooks and excluded paths (the configuration itself is excluded from the
source distribution by the manifest and is modelled from the spec). -/
theorem c2_precommit_config_present :
    RepoItem.packagingManifest manifestDirectives ∈ repositoryContents ∧
    RepoItem.notebook "Particle_Trajectories" ∈ repositoryContents ∧
    (repositoryContents.any RepoItem.isPreCommitWithHooksAndExcludes) = true := by
  exact ⟨by decide, by decide, by decide⟩

/-- Claim C4: each library entry point the spec names — `load_uniform_grid`,
`load_amr_grids`, `load_particles`, `SlicePlot`, `ProjectionPlot`,
`particle_trajectories`, `ds9_region` — is invoked at least once in the
notebooks' code cells. -/
theorem c4_entry_points_invoked :
    (specNamedEntryPoints.all (fun n => allNotebookCalls.contains n)) = true := by
  decide

/-- Claim C5: each grid dictionary constructed in the AMR example carries the
keys `left_edge`, `right_edge`, `level` and `dimensions`, bound to two
3-vectors of coordinates, a non-negative integer level, and a 3-vector of
positive cell counts. -/
theorem c5_grid_dicts_required_keys :
    (grid_data.all gridHasRequiredKeys) = true := by
  decide

/-- Claim C6: in exact rational arithmetic, the level-0 grid covers `[0,1]^3`
with 32 cells per axis (cell width `1/32`), the level-1 grid covers
`[1/4,3/4]^3` with 32 cells per axis (cell width `1/64`, exactly half the
parent's), and the level-1 region is contained in the level-0 region. -/
theorem c6_amr_refinement_geometry :
    gridLeft grid0 = [0, 0, 0] ∧ gridRight grid0 = [1, 1, 1] ∧
    gridDims grid0 = [32, 32, 32] ∧
    gridLeft grid1 = [1/4, 1/4, 1/4] ∧ gridRight grid1 = [3/4, 3/4, 3/4] ∧
    gridDims grid1 = [32, 32, 32] ∧
    (cellWidth grid0 0 = some (1/32) ∧ cellWidth grid0 1 = some (1/32) ∧
      cellWidth grid0 2 = some (1/32)) ∧
    (cellWidth grid1 0 = some (1/64) ∧ cellWidth grid1 1 = some (1/64) ∧
      cellWidth grid1 2 = some (1/64)) ∧
    (1 / 64 : ℚ) = (1 / 32) / 2 ∧
    regionContained grid0 grid1 = true := by
  with_unfolding_all decide

/-- Claim C8: every non-blank line of the packaging manifest parses as one of
exactly four directive forms — `include`, `exclude`, `prune`,
`recursive-include` — each with its arguments, the parsed directives are
exactly the directive list interpreted by `shipped`, and every directive
carries at least one path or glob argument. -/
theorem c8_manifest_grammar :
    (manifestLines.all (fun l => lineIsBlank l || (parseManifestLine l).isSome)) = true ∧
    manifestLines.filterMap parseManifestLine = manifestDirectives ∧
    (manifestDirectives.all directiveHasArgs) = true := by
  exact ⟨by decide, by decide, by decide⟩

/-- Claim C10: in every notebook example that supplies particle positions and
for every particle type in it (default, red, blue, dm, star, and the two AMR
grids including the empty-particle grid), the `particle_position_x`,
`particle_position_y` and `particle_position_z` arrays have equal length. -/
theorem c10_particle_position_lengths :
    (particlePositionExamples.all (fun p => posLensEqual p.1 p.2)) = true := by
  decide

/-- Claim C7: for any file tree containing both `doc/cheatsheet.tex` and
`doc/cheatsheet.pdf`, the manifest's rules applied in file order ship the
`.tex` file but not the `.pdf`: the later `exclude doc/cheatsheet.pdf`
directive overrides the earlier `recursive-include doc ... *.pdf` directive,
which by itself (directives 1-15) does include the `.pdf`. -/
theorem c7_cheatsheet_ship_set (tree : List String)
    (htex : "doc/cheatsheet.tex" ∈ tree) (_hpdf : "doc/cheatsheet.pdf" ∈ tree) :
    shipped tree "doc/cheatsheet.tex" = true ∧
    shipped tree "doc/cheatsheet.pdf" = false ∧
    includedByDirectives (manifestDirectives.take 15) "doc/cheatsheet.pdf" = true := by
  refine ⟨?_, ?_, by decide⟩
  · simp only [shipped, Bool.and_eq_true]
    exact ⟨List.elem_eq_true_of_mem htex, by decide⟩
  · simp only [shipped]
    have : includedByDirectives manifestDirectives "doc/cheatsheet.pdf" = false := by decide
    rw [this, Bool.and_false]

/-- Witness for C7 at the concrete two-file tree. -/
theorem c7_cheatsheet_ship_set_w :
    ("doc/cheatsheet.tex" ∈ ["doc/cheatsheet.tex", "doc/cheatsheet.pdf"] ∧
     "doc/cheatsheet.pdf" ∈ ["doc/cheatsheet.tex", "doc/cheatsheet.pdf"]) ∧
    (shipped ["doc/cheatsheet.tex", "doc/cheatsheet.pdf"] "doc/cheatsheet.tex" = true ∧
     shipped ["doc/cheatsheet.tex", "doc/cheatsheet.pdf"] "doc/cheatsheet.pdf" = false ∧
     includedByDirectives (manifestDirectives.take 15) "doc/cheatsheet.pdf" = true) :=
  ⟨⟨by decide, by decide⟩,
   c7_cheatsheet_ship_set ["doc/cheatsheet.tex", "doc/cheatsheet.pdf"]
     (by decide) (by decide)⟩

/-- Claim C9: the pseudo-entropy field `_pe` computes
`projected_temperature * counts ** (-1/3)` and is well-defined exactly under
the precondition `0 < counts`, where the power is the reciprocal of the
nonzero real `counts ^ (1/3)`; `counts = 0` is reachable (`_counts` returns 0
whenever its `exposure_time` factor is 0), and there the computation divides
by zero; a nonpositive `counts` never yields a finite value. -/
theorem c9_pseudo_entropy_guard (temp counts : ℝ) (h : 0 < counts) :
    _pe temp counts = NpFloat.fin (temp * counts ^ (-(1 : ℝ) / 3)) ∧
    counts ^ ((1 : ℝ) / 3) ≠ 0 ∧
    counts ^ (-(1 : ℝ) / 3) = 1 / counts ^ ((1 : ℝ) / 3) ∧
    (∀ flux pixel : ℝ, _counts flux pixel 0 = 0) ∧
    (∀ t : ℝ, _pe t 0 = NpFloat.divZero) ∧
    (∀ t c : ℝ, c ≤ 0 → ∀ v : ℝ, _pe t c ≠ NpFloat.fin v) := by
  refine ⟨?_, ?_, ?_, ?_, ?_, ?_⟩
  · unfold _pe npPowNegThird
    rw [if_neg h.ne', if_neg (not_lt.mpr h.le)]
    rfl
  · exact (Real.rpow_pos_of_pos h _).ne'
  · rw [neg_div, Real.rpow_neg h.le]
    exact (one_div _).symm
  · intro f p
    unfold _counts
    ring
  · intro t
    unfold _pe npPowNegThird
    rw [if_pos rfl]
    rfl
  · intro t c hc v
    unfold _pe npPowNegThird
    rcases lt_or_eq_of_le hc with hneg | h0
    · rw [if_neg hneg.ne, if_pos hneg]
      simp [npMulLeft]
    · rw [if_pos h0]
      simp [npMulLeft]

/-- Witness for C9 at `temp = 1`, `counts = 1`. -/
theorem c9_pseudo_entropy_guard_w :
    (0 : ℝ) < 1 ∧
    (_pe 1 1 = NpFloat.fin (1 * (1 : ℝ) ^ (-(1 : ℝ) / 3)) ∧
     (1 : ℝ) ^ ((1 : ℝ) / 3) ≠ 0 ∧
     (1 : ℝ) ^ (-(1 : ℝ) / 3) = 1 / (1 : ℝ) ^ ((1 : ℝ) / 3) ∧
     (∀ flux pixel : ℝ, _counts flux pixel 0 = 0) ∧
     (∀ t : ℝ, _pe t 0 = NpFloat.divZero) ∧
     (∀ t c : ℝ, c ≤ 0 → ∀ v : ℝ, _pe t c ≠ NpFloat.fin v)) :=
  ⟨by norm_num, c9_pseudo_entropy_guard 1 1 (by norm_num)⟩

/-- Claim C3: the supplied content has no algorithmic core of its own — the
only functions defined in the source files are the FITS notebook's three
derived fields, and each is glue, the denotation of a closed term of the
glue-expression language (compositions of the external library's elementwise
operations over fetched fields): `_counts = flux * pixel * exposure_time`,
`_pp = sqrt(counts) * projected_temperature`, and
`_pe = projected_temperature * counts ** (-1/3)` on its finite branch. -/
theorem c3_only_glue (env : String → ℝ) :
    countsExpr.denote env = _counts (env "flux") (env "pixel") (env "exposure_time") ∧
    ppExpr.denote env = _pp (env "counts") (env "projected_temperature") ∧
    (0 < env "counts" →
      _pe (env "projected_temperature") (env "counts") =
        NpFloat.fin (peExpr.denote env)) := by
  refine ⟨rfl, rfl, fun h => ?_⟩
  unfold _pe npPowNegThird
  rw [if_neg h.ne', if_neg (not_lt.mpr h.le)]
  show NpFloat.fin _ = NpFloat.fin _
  congr 1
  simp only [peExpr, GlueExpr.denote]
  norm_num

/-- Witness for C3 at the constant environment `1`. -/
theorem c3_only_glue_w :
    (0 : ℝ) < 1 ∧
    _pe 1 1 = NpFloat.fin (peExpr.denote (fun _ => 1)) :=
  ⟨by norm_num, (c3_only_glue (fun _ => 1)).2.2 (by norm_num)⟩

/-- Witness for the amended C1 at a concrete one-item HDF5 file. -/
theorem c1_amended_w :
    (FieldKey.str "Bx", PyVal.fieldPair ⟨[64, 64, 64]⟩ "gauss")
      ∈ hdf5Data [("Bx", ⟨[64, 64, 64]⟩)] ["gauss"] ∧
    PyVal.isFieldPair (PyVal.fieldPair ⟨[64, 64, 64]⟩ "gauss") = true :=
  ⟨by decide,
   c1_amended.2.1 [("Bx", ⟨[64, 64, 64]⟩)] ["gauss"]
     (FieldKey.str "Bx", PyVal.fieldPair ⟨[64, 64, 64]⟩ "gauss") (by decide)⟩
